import Mathlib

/-!
Shallow embedding of `src/server.rs` of the Kalatori backend (the HTTP
handler layer: order creation, force withdrawal, status, and the
placeholder endpoints), together with theorems settling the claims about
it.  Amounts are `f64` in the source; JSON-decodable amounts are finite
doubles and every comparison performed by the code is order-preserving
under the exact-rational embedding, so amounts are modelled as `ℚ`.
External state operations (`state.create_order`, `state.force_withdrawal`,
`state.server_status`) live outside this file's source and are passed in
as function parameters; calls made to `state.create_order` are recorded in
the second component of `process_order`'s result so that store side
effects are visible to the theorems.  A Rust `panic!`/`todo!` is modelled
by the `HandlerOutcome.panicked` constructor.
-/

namespace Kalatori

/-- JSON value as `serde_json` models it, with numbers as exact rationals
(JSON cannot encode NaN or infinities, so every decoded `f64` is finite). -/
inductive JValue where
  | null
  | bool (b : Bool)
  | num (q : ℚ)
  | str (s : String)
  | arr (xs : List JValue)
  | obj (fields : List (String × JValue))

/-- Embedding of `serde_json::Value::as_str`. -/
def JValue.as_str : JValue → Option String
  | .str s => some s
  | _ => none

/-- Embedding of `serde_json::Value::as_f64` (any JSON number converts). -/
def JValue.as_f64 : JValue → Option ℚ
  | .num q => some q
  | _ => none

/-- Embedding of `OrderQuery` from `definitions::api_v2`. -/
structure OrderQuery where
  order : String
  currency : String
  callback : Option String
  amount : ℚ
deriving DecidableEq, Repr

/-- Embedding of `OrderResponse` from `definitions::api_v2`; the payload
type of an order status record is abstract here. -/
inductive OrderResponse (α : Type) where
  | NewOrder (s : α)
  | FoundOrder (s : α)
  | ModifiedOrder (s : α)
  | CollidedOrder (s : α)
  | NotFound
deriving DecidableEq

/-- Embedding of `error::OrderError`. -/
inductive OrderError where
  | LessThanExistentialDeposit (ed : ℚ)
  | UnknownCurrency
  | MissingParameter (p : String)
  | InvalidParameter (p : String)
  | InternalError
deriving DecidableEq

/-- The `ORDER_ID` constant of `process_order` / `process_force_withdrawal`. -/
def ORDER_ID : String := "order_id"

/-- The `0.07` literal of `process_order` (the existential-deposit floor),
as an exact rational. -/
def existentialDeposit : ℚ := mkRat 7 100

/-- Embedding of `RawPathParams::iter().find_map(...)`: the first value
whose key equals `key`. -/
def findPathParam (ps : List (String × String)) (key : String) : Option String :=
  ps.findSome? fun kv => if kv.1 = key then some kv.2 else none

/-- Embedding of `process_order`.  `create_order` stands for the external
`state.create_order`; the second component of the result records the
queries passed to it (empty means `state.create_order` was never invoked,
hence no invoice row was created). -/
def process_order (create_order : OrderQuery → Except Unit (OrderResponse α))
    (matched_path : String)
    (path_result : Except Unit (List (String × String)))
    (payload : OrderQuery) :
    Except OrderError (OrderResponse α) × List OrderQuery :=
  match path_result with
  | .error _ => (.error (.InvalidParameter matched_path), [])
  | .ok path_parameters =>
      match findPathParam path_parameters ORDER_ID with
      | none => (.error (.MissingParameter ORDER_ID), [])
      | some order =>
          if payload.amount < existentialDeposit then
            (.error (.LessThanExistentialDeposit existentialDeposit), [])
          else
            let q : OrderQuery :=
              { order := order, amount := payload.amount,
                callback := payload.callback, currency := payload.currency }
            ((match create_order q with
              | .ok response => .ok response
              | .error _ => .error .InternalError), [q])

/-- Embedding of the `InvalidParameter` response struct of `server.rs`
(serialized as a JSON object with `parameter` and `message` fields). -/
structure InvalidParameter where
  parameter : String
  message : String
deriving DecidableEq, Repr

/-- Body of a response produced by the `order` handler: a serialized order
status, a serialized array of `InvalidParameter` records, or an empty body
(the `""` of the 404 arm and the bare 500 status). -/
inductive OrderBody (α : Type) where
  | json (s : α)
  | errors (xs : List InvalidParameter)
  | empty
deriving DecidableEq

/-- Response of the `order` handler: HTTP status code and body. -/
structure OrderHttpResponse (α : Type) where
  status : Nat
  body : OrderBody α
deriving DecidableEq

/-- Embedding of the payload destructuring at the top of the `order`
handler: `remove("currency")/as_str` defaulting to `"Unknown"`,
`remove("amount")/as_f64` defaulting to `0.0`, `remove("callback")/as_str`
defaulting to no callback; the order identifier comes from the path. -/
def orderQueryOf (order_id : String) (payload : List (String × JValue)) :
    OrderQuery :=
  { order := order_id
    currency := ((payload.lookup "currency").bind JValue.as_str).getD "Unknown"
    callback := (payload.lookup "callback").bind JValue.as_str
    amount := ((payload.lookup "amount").bind JValue.as_f64).getD 0 }

/-- Rendering of an `f64` as Rust's `Display` prints it, at the one value
the code ever formats (`0.07` prints as `0.07`). -/
def f64ToString (q : ℚ) : String :=
  if q = mkRat 7 100 then "0.07" else toString q.num ++ "/" ++ toString q.den

/-- The `format!` string of the `LessThanExistentialDeposit` arm. -/
def ltEdMessage (ed : ℚ) : String :=
  "provided amount is less than the currency\x27s existential deposit ("
    ++ f64ToString ed ++ ")"

/-- Embedding of the `order` handler of `server.rs`. -/
def order (create_order : OrderQuery → Except Unit (OrderResponse α))
    (matched_path : String)
    (path_result : Except Unit (List (String × String)))
    (order_id : String)
    (payload : List (String × JValue)) : OrderHttpResponse α :=
  match (process_order create_order matched_path path_result
      (orderQueryOf order_id payload)).1 with
  | .ok r =>
      match r with
      | .NewOrder s => ⟨201, .json s⟩
      | .FoundOrder s => ⟨200, .json s⟩
      | .ModifiedOrder s => ⟨200, .json s⟩
      | .CollidedOrder s => ⟨409, .json s⟩
      | .NotFound => ⟨404, .empty⟩
  | .error e =>
      match e with
      | .LessThanExistentialDeposit ed =>
          ⟨400, .errors [⟨"amount", ltEdMessage ed⟩]⟩
      | .UnknownCurrency =>
          ⟨400, .errors [⟨"currency", "provided currency isn\x27t supported"⟩]⟩
      | .MissingParameter p =>
          ⟨400, .errors [⟨p, "parameter wasn\x27t found"⟩]⟩
      | .InvalidParameter p =>
          ⟨400, .errors [⟨p, "parameter\x27s format is invalid"⟩]⟩
      | .InternalError => ⟨500, .empty⟩

/-- Embedding of `error::ForceWithdrawalError`; the payload of the
`WithdrawalError` variant (the converted `state.force_withdrawal` error)
is abstract here. -/
inductive ForceWithdrawalError (ε : Type) where
  | WithdrawalError (e : ε)
  | MissingParameter (p : String)
  | InvalidParameter (p : String)
deriving DecidableEq

/-- Embedding of `process_force_withdrawal`; `fw` stands for the external
`state.force_withdrawal`. -/
def process_force_withdrawal (fw : String → Except ε α)
    (matched_path : String)
    (path_result : Except Unit (List (String × String))) :
    Except (ForceWithdrawalError ε) α :=
  match path_result with
  | .error _ => .error (.InvalidParameter matched_path)
  | .ok path_parameters =>
      match findPathParam path_parameters ORDER_ID with
      | none => .error (.MissingParameter ORDER_ID)
      | some order =>
          match fw order with
          | .ok a => .ok a
          | .error e => .error (.WithdrawalError e)

/-- Body of a response produced by the `force_withdrawal` handler: a
serialized receipt (`Json(a)` on success), a serialized withdrawal error
(`Json(a)` of the error arm), or a serialized array of `InvalidParameter`
records. -/
inductive FwBody (α ε : Type) where
  | json (a : α)
  | errorJson (e : ε)
  | errors (xs : List InvalidParameter)
deriving DecidableEq

/-- Response of the `force_withdrawal` handler. -/
structure FwHttpResponse (α ε : Type) where
  status : Nat
  body : FwBody α ε
deriving DecidableEq

/-- Embedding of the `force_withdrawal` handler of `server.rs`. -/
def force_withdrawal (fw : String → Except ε α) (matched_path : String)
    (path_result : Except Unit (List (String × String))) :
    FwHttpResponse α ε :=
  match process_force_withdrawal fw matched_path path_result with
  | .ok a => ⟨201, .json a⟩
  | .error (.WithdrawalError a) => ⟨400, .errorJson a⟩
  | .error (.MissingParameter p) =>
      ⟨400, .errors [⟨p, "parameter wasn\x27t found"⟩]⟩
  | .error (.InvalidParameter p) =>
      ⟨400, .errors [⟨p, "parameter\x27s format is invalid"⟩]⟩

/-- Outcome of running a handler body: either a response value or a Rust
panic (`panic!` / `todo!`) with its message. -/
inductive HandlerOutcome (ρ : Type) where
  | response (r : ρ)
  | panicked (msg : String)
deriving DecidableEq

/-- Embedding of the `status` handler: on success a `Cache-Control:
no-store` header plus the freshly computed `ServerStatus` body (the body
type is abstract); on store failure the source executes
`panic!("db connection is down, state is lost")`. -/
def status {σ : Type} (server_status : Except Unit σ) :
    HandlerOutcome (List (String × String) × σ) :=
  match server_status with
  | .ok s => .response ([("cache-control", "no-store")], s)
  | .error _ => .panicked "db connection is down, state is lost"

/-- Response carrying only an HTTP status code (body-less `into_response`). -/
structure SimpleResponse where
  status : Nat
deriving DecidableEq

/-- Embedding of the `health` handler: its body is `todo!()`, which
panics with the message below. -/
def health {σ τ : Type} (_state : σ) :
    HandlerOutcome (List (String × String) × τ) :=
  .panicked "not yet implemented"

/-- Embedding of the `audit` handler: returns `StatusCode::NOT_IMPLEMENTED`
(501). -/
def audit {σ : Type} (_state : σ) : HandlerOutcome SimpleResponse :=
  .response ⟨501⟩

/-- Embedding of the `investigate` handler: its body is `todo!()`. -/
def investigate {σ : Type} (_state : σ) (_matched_path : String)
    (_path_result : Except Unit (List (String × String)))
    (_query : List (String × String)) : HandlerOutcome SimpleResponse :=
  .panicked "not yet implemented"

/-- Embedding of the `public_payment_account` handler: its body is
`todo!()`. -/
def public_payment_account {σ : Type} (_state : σ) (_matched_path : String)
    (_path_result : Except Unit (List (String × String)))
    (_query : List (String × String)) : HandlerOutcome SimpleResponse :=
  .panicked "not yet implemented"

/-- Modelled from the spec: the status-code column of the §6 API table for
the order operation — 201 new, 200 found or modified, 409 collided, 400
for validation failures, 500 internal.  `NotFound` is absent from the
spec's table, so it is mapped to `none`. -/
def specOrderStatusMap : Except OrderError (OrderResponse α) → Option Nat
  | .ok (.NewOrder _) => some 201
  | .ok (.FoundOrder _) => some 200
  | .ok (.ModifiedOrder _) => some 200
  | .ok (.CollidedOrder _) => some 409
  | .ok .NotFound => none
  | .error .InternalError => some 500
  | .error _ => some 400

/-- The validation errors of the spec's taxonomy (§7): below-minimum
amount, unknown currency, missing parameter, invalid parameter — every
`OrderError` except `InternalError`. -/
def OrderError.isValidation : OrderError → Bool
  | .InternalError => false
  | _ => true

/-- Whether a `force_withdrawal` body is a structured error body (either
the serialized withdrawal error or the `InvalidParameter` list). -/
def FwBody.isStructuredError : FwBody α ε → Bool
  | .json _ => false
  | .errorJson _ => true
  | .errors _ => true

/-- C1: whenever the path carries an `order_id`, any amount strictly below
0.07 makes `process_order` return the below-minimum error with
`state.create_order` never invoked (no invoice row, no side effect) — and
the no-invocation part holds for every path outcome; an amount of exactly
0.07 passes the validation and `state.create_order` is invoked with the
assembled query. -/
theorem c1_below_minimum_rejected {α : Type}
    (create_order : OrderQuery → Except Unit (OrderResponse α))
    (mp oid : String) (ps : List (String × String)) (payload : OrderQuery)
    (hfind : findPathParam ps ORDER_ID = some oid) :
    (payload.amount < existentialDeposit →
      process_order create_order mp (.ok ps) payload
        = (.error (.LessThanExistentialDeposit existentialDeposit), []))
    ∧ (∀ pr, payload.amount < existentialDeposit →
        (process_order create_order mp pr payload).2 = [])
    ∧ (payload.amount = existentialDeposit →
        (process_order create_order mp (.ok ps) payload).2
          = [{ order := oid, amount := payload.amount,
               callback := payload.callback, currency := payload.currency }]) := by
  refine ⟨?_, ?_, ?_⟩
  · intro hlt
    simp [process_order, hfind, hlt]
  · intro pr hlt
    cases pr with
    | error e => simp [process_order]
    | ok ps2 =>
        simp only [process_order]
        cases hf : findPathParam ps2 ORDER_ID with
        | none => simp
        | some o => simp [hlt]
  · intro heq
    have hnlt : ¬ payload.amount < existentialDeposit := by
      rw [heq]; exact lt_irrefl _
    simp only [process_order, hfind]
    rw [if_neg hnlt]

/-- Witness for C1 at concrete inputs: amount 0.05 is rejected with no
`create_order` call, and amount 0.07 reaches `create_order`. -/
theorem c1_below_minimum_rejected_witness :
    process_order (fun _ => (.ok .NotFound : Except Unit (OrderResponse Unit)))
        "/v2/order/:order_id" (.ok [("order_id", "x")])
        { order := "x", currency := "DOT", callback := none, amount := mkRat 5 100 }
      = (.error (.LessThanExistentialDeposit existentialDeposit), [])
    ∧ (process_order (fun _ => (.ok .NotFound : Except Unit (OrderResponse Unit)))
        "/v2/order/:order_id" (.ok [("order_id", "x")])
        { order := "x", currency := "DOT", callback := none,
          amount := mkRat 7 100 }).2
      = [{ order := "x", amount := mkRat 7 100, callback := none,
           currency := "DOT" }] :=
  ⟨(c1_below_minimum_rejected (fun _ => .ok .NotFound) "/v2/order/:order_id" "x"
      [("order_id", "x")]
      { order := "x", currency := "DOT", callback := none, amount := mkRat 5 100 }
      (by decide)).1 (by decide),
   (c1_below_minimum_rejected (fun _ => .ok .NotFound) "/v2/order/:order_id" "x"
      [("order_id", "x")]
      { order := "x", currency := "DOT", callback := none, amount := mkRat 7 100 }
      (by decide)).2.2 (by decide)⟩

/-- C2: the claim says a failing `state.server_status()` is surfaced as an
error response without a panic; the source instead executes
`panic!("db connection is down, state is lost")` on the error arm, so the
serving process crashes.  This theorem evaluates the handler at the
failing input. -/
theorem c2_status_handler_panics_on_store_failure :
    @status Unit (.error ())
      = .panicked "db connection is down, state is lost" := rfl

/-- C3: the claim says every placeholder operation answers with an
explicit not-implemented result and never crashes; in the source only
`audit` does (501), while `health`, `investigate` and
`public_payment_account` are `todo!()` bodies, which panic on every
request. -/
theorem c3_placeholder_handlers_panic :
    @health Unit Unit () = .panicked "not yet implemented"
    ∧ @investigate Unit () "/v2/order/:order_id/investigate" (.ok []) []
        = .panicked "not yet implemented"
    ∧ @public_payment_account Unit () "/public/v2/payment/:paymentAccount"
        (.ok []) []
        = .panicked "not yet implemented"
    ∧ @audit Unit () = .response ⟨501⟩ :=
  ⟨rfl, rfl, rfl, rfl⟩

/-- C4: the HTTP status of the `order` handler matches the spec's §6
table on every outcome the table lists (`NewOrder` 201, `FoundOrder` and
`ModifiedOrder` 200, `CollidedOrder` 409, validation failures 400,
internal errors 500). -/
theorem c4_order_status_mapping {α : Type}
    (create_order : OrderQuery → Except Unit (OrderResponse α))
    (mp : String) (pr : Except Unit (List (String × String)))
    (oid : String) (payload : List (String × JValue)) (c : Nat)
    (h : specOrderStatusMap
        ((process_order create_order mp pr (orderQueryOf oid payload)).1)
      = some c) :
    (order create_order mp pr oid payload).status = c := by
  cases hp : (process_order create_order mp pr (orderQueryOf oid payload)).1 with
  | ok r =>
      rw [hp] at h
      cases r <;> simp_all [order, specOrderStatusMap]
  | error e =>
      rw [hp] at h
      cases e <;> simp_all [order, specOrderStatusMap]

/-- Witness for C4: a `NewOrder` outcome at a concrete request yields
status 201. -/
theorem c4_order_status_mapping_witness :
    (order (fun _ => (.ok (.NewOrder ()) : Except Unit (OrderResponse Unit)))
        "/v2/order/:order_id" (.ok [("order_id", "x")]) "x"
        [("amount", .num 1)]).status = 201 :=
  c4_order_status_mapping (fun _ => .ok (.NewOrder ())) "/v2/order/:order_id"
    (.ok [("order_id", "x")]) "x" [("amount", .num 1)] 201 (by decide)

/-- C5: the claim says an unsupported currency yields a 400 validation
error naming `currency`; in the source `process_order` maps every
`state.create_order` error — the only place an unsupported currency can
be rejected — to `OrderError::InternalError`, so the handler answers 500
with an empty body and the 400 `UnknownCurrency` arm is unreachable.
Evaluated here at a request whose currency the engine rejects. -/
theorem c5_unsupported_currency_returns_500 :
    order (fun _ => (.error () : Except Unit (OrderResponse Unit)))
      "/v2/order/:order_id" (.ok [("order_id", "x")]) "x"
      [("currency", .str "FAKE"), ("amount", .num 1)]
      = ⟨500, .empty⟩ := by decide

/-- C6: every validation-failure response of the `order` and
`force_withdrawal` handlers (below-minimum amount, unknown currency,
missing parameter, invalid parameter) carries a body that is a list of
`parameter`/`message` objects, with exactly one object for the one
offending field. -/
theorem c6_validation_error_body_shape :
    (∀ (α : Type) (create_order : OrderQuery → Except Unit (OrderResponse α))
       (mp : String) (pr : Except Unit (List (String × String)))
       (oid : String) (payload : List (String × JValue)) (e : OrderError),
       (process_order create_order mp pr (orderQueryOf oid payload)).1
           = .error e →
       e.isValidation = true →
       ∃ p m, (order create_order mp pr oid payload).body
         = .errors [⟨p, m⟩])
    ∧ (∀ (ε α : Type) (fw : String → Except ε α) (mp p : String)
       (pr : Except Unit (List (String × String))),
       (process_force_withdrawal fw mp pr = .error (.MissingParameter p) ∨
        process_force_withdrawal fw mp pr = .error (.InvalidParameter p)) →
       ∃ m, (force_withdrawal fw mp pr).body = .errors [⟨p, m⟩]) := by
  constructor
  · intro α create_order mp pr oid payload e he hval
    cases e with
    | LessThanExistentialDeposit ed =>
        exact ⟨"amount", ltEdMessage ed, by simp [order, he]⟩
    | UnknownCurrency =>
        exact ⟨"currency", "provided currency isn\x27t supported",
          by simp [order, he]⟩
    | MissingParameter p =>
        exact ⟨p, "parameter wasn\x27t found", by simp [order, he]⟩
    | InvalidParameter p =>
        exact ⟨p, "parameter\x27s format is invalid", by simp [order, he]⟩
    | InternalError => simp [OrderError.isValidation] at hval
  · intro ε α fw mp p pr hor
    rcases hor with h | h
    · exact ⟨"parameter wasn\x27t found", by simp [force_withdrawal, h]⟩
    · exact ⟨"parameter\x27s format is invalid", by simp [force_withdrawal, h]⟩

/-- Witness for C6: a below-minimum order request and a force-withdrawal
request with no path parameters both answer with a singleton
`parameter`/`message` list. -/
theorem c6_validation_error_body_shape_witness :
    (∃ p m, (order (fun _ => (.ok .NotFound : Except Unit (OrderResponse Unit)))
        "/v2/order/:order_id" (.ok [("order_id", "x")]) "x" []).body
        = .errors [⟨p, m⟩])
    ∧ (∃ m, (force_withdrawal (fun _ => (.error () : Except Unit Unit))
          "/v2/order/:order_id/forceWithdrawal" (.ok [])).body
        = .errors [⟨"order_id", m⟩]) :=
  ⟨c6_validation_error_body_shape.1 Unit (fun _ => .ok .NotFound)
      "/v2/order/:order_id" (.ok [("order_id", "x")]) "x" []
      (.LessThanExistentialDeposit existentialDeposit) (by rfl) (by rfl),
   c6_validation_error_body_shape.2 Unit Unit (fun _ => .error ())
      "/v2/order/:order_id/forceWithdrawal" "order_id" (.ok [])
      (Or.inl (by rfl))⟩

/-- C7: the `force_withdrawal` handler answers 201 with the receipt on
success and 400 with a structured error body on every failure; 201 and
400 are the only statuses it produces. -/
theorem c7_force_withdrawal_status_codes {ε α : Type}
    (fw : String → Except ε α) (mp : String)
    (pr : Except Unit (List (String × String))) :
    ((force_withdrawal fw mp pr).status = 201 ∨
      (force_withdrawal fw mp pr).status = 400)
    ∧ (∀ a, process_force_withdrawal fw mp pr = .ok a →
        force_withdrawal fw mp pr = ⟨201, .json a⟩)
    ∧ (∀ e, process_force_withdrawal fw mp pr = .error e →
        (force_withdrawal fw mp pr).status = 400 ∧
          ((force_withdrawal fw mp pr).body).isStructuredError = true) := by
  refine ⟨?_, ?_, ?_⟩
  · cases hp : process_force_withdrawal fw mp pr with
    | ok a => left; simp [force_withdrawal, hp]
    | error e => right; cases e <;> simp [force_withdrawal, hp]
  · intro a ha
    simp [force_withdrawal, ha]
  · intro e he
    cases e <;> simp [force_withdrawal, he, FwBody.isStructuredError]

/-- Witness for C7: a succeeding withdrawal answers 201 with the receipt;
a failing one answers 400 with a structured body. -/
theorem c7_force_withdrawal_status_codes_witness :
    force_withdrawal (fun _ => (.ok () : Except Unit Unit))
        "/v2/order/:order_id/forceWithdrawal" (.ok [("order_id", "x")])
      = ⟨201, .json ()⟩
    ∧ ((force_withdrawal (fun _ => (.error () : Except Unit Unit))
        "/v2/order/:order_id/forceWithdrawal"
        (.ok [("order_id", "x")])).status = 400
      ∧ ((force_withdrawal (fun _ => (.error () : Except Unit Unit))
        "/v2/order/:order_id/forceWithdrawal"
        (.ok [("order_id", "x")])).body).isStructuredError = true) :=
  ⟨(c7_force_withdrawal_status_codes (fun _ => .ok ())
      "/v2/order/:order_id/forceWithdrawal" (.ok [("order_id", "x")])).2.1 ()
      (by rfl),
   (c7_force_withdrawal_status_codes (fun _ => .error ())
      "/v2/order/:order_id/forceWithdrawal" (.ok [("order_id", "x")])).2.2
      (.WithdrawalError ()) (by rfl)⟩

/-- C8: every successful `status` response carries the
`Cache-Control: no-store` header, and its body is exactly the value
`state.server_status()` computed on this call — nothing cached. -/
theorem c8_status_no_store_header {σ : Type} (s : σ) :
    status (.ok s) = .response ([("cache-control", "no-store")], s) := rfl

/-- C9: a missing or non-numeric `amount` defaults to 0 and is rejected
with the below-minimum `amount` validation error (not a missing-parameter
error); a missing `currency` defaults to the string `"Unknown"` and a
missing `callback` to no callback, and with a valid amount the request
still reaches `state.create_order` — neither default causes a handler
validation error. -/
theorem c9_payload_defaults {α : Type}
    (create_order : OrderQuery → Except Unit (OrderResponse α))
    (mp oid : String) (ps : List (String × String))
    (payload : List (String × JValue))
    (hfind : findPathParam ps ORDER_ID = some oid) :
    ((payload.lookup "amount").bind JValue.as_f64 = none →
      (orderQueryOf oid payload).amount = 0 ∧
      order create_order mp (.ok ps) oid payload
        = ⟨400, .errors [⟨"amount", ltEdMessage existentialDeposit⟩]⟩)
    ∧ (payload.lookup "currency" = none →
        (orderQueryOf oid payload).currency = "Unknown")
    ∧ (payload.lookup "callback" = none →
        (orderQueryOf oid payload).callback = none)
    ∧ (∀ q : ℚ, (payload.lookup "amount").bind JValue.as_f64 = some q →
        existentialDeposit ≤ q →
        (process_order create_order mp (.ok ps)
            (orderQueryOf oid payload)).2
          = [{ order := oid,
               currency := (orderQueryOf oid payload).currency,
               callback := (orderQueryOf oid payload).callback,
               amount := q }]) := by
  refine ⟨?_, ?_, ?_, ?_⟩
  · intro hamt
    have h0 : (orderQueryOf oid payload).amount = 0 := by
      simp [orderQueryOf, hamt]
    refine ⟨h0, ?_⟩
    have hlt : (orderQueryOf oid payload).amount < existentialDeposit := by
      rw [h0]; decide
    simp [order, process_order, hfind, hlt]
  · intro hcur
    simp [orderQueryOf, hcur]
  · intro hcb
    simp [orderQueryOf, hcb]
  · intro q hq hge
    have ha : (orderQueryOf oid payload).amount = q := by
      simp [orderQueryOf, hq]
    have hnlt : ¬ (orderQueryOf oid payload).amount < existentialDeposit := by
      rw [ha]; exact not_lt.mpr hge
    simp only [process_order, hfind]
    rw [if_neg hnlt, ha]

/-- Witness for C9 at concrete inputs: an empty body gives amount 0,
currency `"Unknown"`, no callback and the below-minimum rejection; a body
with only a valid amount still reaches `create_order`. -/
theorem c9_payload_defaults_witness :
    ((orderQueryOf "x" ([] : List (String × JValue))).amount = 0 ∧
      order (fun _ => (.ok .NotFound : Except Unit (OrderResponse Unit)))
        "/v2/order/:order_id" (.ok [("order_id", "x")]) "x" []
        = ⟨400, .errors [⟨"amount", ltEdMessage existentialDeposit⟩]⟩)
    ∧ (orderQueryOf "x" ([] : List (String × JValue))).currency = "Unknown"
    ∧ (orderQueryOf "x" ([] : List (String × JValue))).callback = none
    ∧ (process_order (fun _ => (.ok .NotFound : Except Unit (OrderResponse Unit)))
        "/v2/order/:order_id" (.ok [("order_id", "x")])
        (orderQueryOf "x" [("amount", .num 1)])).2
      = [{ order := "x",
           currency := (orderQueryOf "x" [("amount", .num 1)]).currency,
           callback := (orderQueryOf "x" [("amount", .num 1)]).callback,
           amount := 1 }] :=
  ⟨(c9_payload_defaults (fun _ => .ok .NotFound) "/v2/order/:order_id" "x"
      [("order_id", "x")] [] (by decide)).1 (by rfl),
   (c9_payload_defaults (fun _ => (.ok .NotFound : Except Unit (OrderResponse Unit)))
      "/v2/order/:order_id" "x" [("order_id", "x")] [] (by decide)).2.1 (by rfl),
   (c9_payload_defaults (fun _ => (.ok .NotFound : Except Unit (OrderResponse Unit)))
      "/v2/order/:order_id" "x" [("order_id", "x")] [] (by decide)).2.2.1 (by rfl),
   (c9_payload_defaults (fun _ => .ok .NotFound) "/v2/order/:order_id" "x"
      [("order_id", "x")] [("amount", .num 1)] (by decide)).2.2.2 1 (by rfl)
      (by decide)⟩

/-- C10: when the engine returns `OrderResponse::NotFound`, the `order`
handler answers 404 with an empty body — a fifth outcome beyond the
spec's four. -/
theorem c10_engine_not_found_maps_to_404 {α : Type}
    (create_order : OrderQuery → Except Unit (OrderResponse α))
    (mp : String) (pr : Except Unit (List (String × String)))
    (oid : String) (payload : List (String × JValue))
    (h : (process_order create_order mp pr (orderQueryOf oid payload)).1
        = .ok .NotFound) :
    order create_order mp pr oid payload = ⟨404, .empty⟩ := by
  simp [order, h]

/-- Witness for C10: a concrete request whose engine outcome is
`NotFound` answers 404 with an empty body. -/
theorem c10_engine_not_found_maps_to_404_witness :
    order (fun _ => (.ok .NotFound : Except Unit (OrderResponse Unit)))
      "/v2/order/:order_id" (.ok [("order_id", "x")]) "x" [("amount", .num 1)]
      = ⟨404, .empty⟩ :=
  c10_engine_not_found_maps_to_404 (fun _ => .ok .NotFound)
    "/v2/order/:order_id" (.ok [("order_id", "x")]) "x" [("amount", .num 1)]
    (by rfl)

end Kalatori
